import Mathlib

/-!
Verification of the package-search Discord worker (`src/worker.ts`).

Strings are modelled as `List Char` (`Str`).  JavaScript semantics that the
worker relies on are embedded explicitly:
  * `String.prototype.trim`, `includes`, `startsWith`, `toLowerCase`,
    `replace(string, '')` (first occurrence), `split`, `lastIndexOf`;
  * the token scan `/(\w+):(\S+)/g` used by `parseSearchQuery`, as a
    left-to-right scanner (`scanTokens`);
  * `Array.prototype.sort`, which per the ECMAScript spec is stable and
    sorts in place, as `List.insertionSort` (stable) plus an explicit
    post-state for the in-place mutation (`searchPackagesPost`);
  * `RegExp` compilation and matching are external platform semantics and
    are passed in as parameters: `compile : Str → Option JsRegex` models
    `new RegExp(pat, "i")` (`none` = SyntaxError) and a `JsRegex` models
    `exec` (first matched substring, `test` = `isSome`); `dateVal` models
    `new Date(s).getTime()`.
Truthiness of optional filter strings (`if (filters.author)`) is modelled
by `optTruthy` (absent or empty string is falsy).
-/

namespace PCBot

abbrev Str := List Char

/-- Builds a `Str` from a string literal. -/
def str (s : String) : Str := s.data

/-- JS `\w` character class: `[A-Za-z0-9_]`. -/
def isWordChar (c : Char) : Bool := c.isAlphanum || c = '_'

/-- ASCII fragment of the JS `\s` class / `trim` set (all inputs here are ASCII). -/
def isSpaceChar (c : Char) : Bool := c = ' ' || c = '\t' || c = '\n' || c = '\r'

/-- `s.toLowerCase()` (ASCII). -/
def lowerStr (s : Str) : Str := s.map Char.toLower

/-- `s.trim()`. -/
def trimStr (s : Str) : Str :=
  ((s.dropWhile isSpaceChar).reverse.dropWhile isSpaceChar).reverse

/-- `s.includes(p)`. -/
def containsStr : Str → Str → Bool
  | [], p => p.isEmpty
  | s@(_ :: rest), p => p.isPrefixOf s || containsStr rest p

/-- `s.replace(p, '')` for a plain-string pattern `p`: removes the first
occurrence of `p`, or returns `s` unchanged when `p` does not occur. -/
def removeFirst (p : Str) : Str → Str
  | [] => []
  | c :: cs => if p.isPrefixOf (c :: cs) then (c :: cs).drop p.length
               else c :: removeFirst p cs

/-- `s.split(sep)` for a single-character separator. -/
def splitOnChar (sep : Char) : Str → List Str
  | [] => [[]]
  | c :: cs =>
    let r := splitOnChar sep cs
    if c = sep then [] :: r
    else
      match r with
      | h :: t => (c :: h) :: t
      | [] => [[c]]

/-- `s.lastIndexOf(c)` (as `Option`; `none` stands for JS `-1`). -/
def lastIndexOfChar (c : Char) (s : Str) : Option Nat :=
  match s.reverse.findIdx? (fun x => x = c) with
  | some j => some (s.length - 1 - j)
  | none => none

/-- `parseInt(s)` restricted to radix-10 inputs: optional sign then leading
decimal digits; `none` models `NaN`. -/
def parseIntJs (s : Str) : Option Int :=
  let digitsVal : Str → Option Nat := fun t =>
    let ds := t.takeWhile Char.isDigit
    if ds.isEmpty then none
    else some (ds.foldl (fun acc c => acc * 10 + (c.toNat - 48)) 0)
  let s1 := s.dropWhile isSpaceChar
  match s1 with
  | '-' :: rest => (digitsVal rest).map (fun n => -(n : Int))
  | '+' :: rest => (digitsVal rest).map (fun n => (n : Int))
  | _ => (digitsVal s1).map (fun n => (n : Int))

/-- `toString` for the indices embedded in component ids. -/
def natToStr (n : Nat) : Str := (toString n).data

/-! ## The token scanner `/(\w+):(\S+)/g` of `parseSearchQuery` -/

structure Token where
  key : Str
  value : Str
deriving DecidableEq

def tokenFull (t : Token) : Str := t.key ++ ':' :: t.value

/-- One attempt of `(\w+):(\S+)` anchored at the head of `l`; on success
returns the token and the remaining suffix.  Backtracking inside `\w+`
cannot help (every given-back character is a word character, not `:`),
so the greedy runs below are exactly the JS match. -/
def matchAt (l : Str) : Option (Token × Str) :=
  let w := l.takeWhile isWordChar
  if w.isEmpty then none
  else
    match l.drop w.length with
    | ':' :: r2 =>
      let v := r2.takeWhile (fun c => !(isSpaceChar c))
      if v.isEmpty then none else some (⟨w, v⟩, r2.drop v.length)
    | _ => none

/-- Left-to-right global scan, fuelled by the input length (each successful
match consumes at least one character, each failure advances by one). -/
def scanFuel : Nat → Str → List Token
  | 0, _ => []
  | _ + 1, [] => []
  | fuel + 1, c :: cs =>
    match matchAt (c :: cs) with
    | some (t, rest) => t :: scanFuel fuel rest
    | none => scanFuel fuel cs

def scanTokens (s : Str) : List Token := scanFuel s.length s

/-! ## `SearchFilters` and `parseSearchQuery` -/

structure SearchFilters where
  author : Option Str
  label : Option Str
  textQuery : Str
deriving DecidableEq

/-- One iteration of the `while ((match = filterRegex.exec(query)))` loop:
the switch on the lower-cased key, then
`remainingQuery = remainingQuery.replace(fullMatch, '').trim()`. -/
def recognizeStep (st : Option Str × Option Str × Str) (t : Token) :
    Option Str × Option Str × Str :=
  let rem' := trimStr (removeFirst (tokenFull t) st.2.2)
  if lowerStr t.key = str "author" then (some t.value, st.2.1, rem')
  else if lowerStr t.key = str "label" then (st.1, some t.value, rem')
  else (st.1, st.2.1, rem')

/-- `PackageService.parseSearchQuery` (worker.ts lines 209-237). -/
def parseSearchQuery (query : Str) : SearchFilters :=
  let st := (scanTokens query).foldl recognizeStep (none, none, query)
  { author := st.1, label := st.2.1, textQuery := trimStr st.2.2 }

/-! ## Catalog data model (worker.ts lines 71-129) -/

structure Release where
  sublime_text : Str
  platforms : List Str
  version : Str
  url : Str
  date : Str
deriving DecidableEq

structure Package where
  name : Str
  author : List Str
  last_modified : Str
  releases : List Release
  homepage : Option Str
  description : Str
  previous_names : List Str
  labels : List Str
  readme : Option Str
  issues : Option Str
  donate : Option Str
  buy : Option Str
deriving DecidableEq

structure Library where
  name : Str
  author : Str
  description : Str
  issues : Option Str
  releases : List Release
  last_modified : Option Str
deriving DecidableEq

/-- `Object.entries` iteration order of the two caches is the JSON insertion
order, modelled as association lists. -/
structure ChannelData where
  schema_version : Str
  repositories : List Str
  packages_cache : List (Str × List Package)
  libraries_cache : List (Str × List Library)
deriving DecidableEq

/-- `author: string[] | string` on `SearchResult`. -/
inductive AuthorField
  | one (s : Str)
  | many (l : List Str)
deriving DecidableEq

inductive ResultType
  | package
  | library
deriving DecidableEq

structure SearchResult where
  name : Str
  description : Str
  author : AuthorField
  homepage : Option Str
  type : ResultType
  labels : Option (List Str)
  latest_version : Option Str
  repository : Str
  relevanceScore : Int
  issues : Option Str
  last_modified : Option Str
deriving DecidableEq

/-! ## Regex queries -/

/-- Model of a compiled case-insensitive `RegExp` without the `g` flag:
`exec` returning the first matched substring (`test s = (r s).isSome`). -/
def JsRegex := Str → Option Str

/-- `PackageService.isRegexPattern` (worker.ts lines 401-410). -/
def isRegexPattern (q : Str) : Bool :=
  (q.head? == some '/' && q.getLast? == some '/' && decide (2 < q.length))
  || q.any (fun c =>
      c ∈ ['.', '*', '+', '?', '^', '$', Char.ofNat 123, Char.ofNat 125,
           '(', ')', '|', '[', ']', '\\'])

/-- `filters.textQuery.replace(/^\/|\/$/g, "")`: one leading and one trailing
slash are removed (a single `/` is consumed once by the first alternative). -/
def stripSlashes (s : Str) : Str :=
  let s1 := if s.head? == some '/' then s.tail else s
  if s1.getLast? == some '/' then s1.dropLast else s1

/-! ## Relevance scoring -/

/-- `PackageService.calculateRelevance` (worker.ts lines 412-477). -/
def calculateRelevance (name description searchTerm : Str)
    (regexPattern : Option JsRegex) : Int :=
  if name.isEmpty || description.isEmpty || searchTerm.isEmpty then 0
  else
    let score : Int :=
      match regexPattern with
      | some re =>
        let nameScore : Int :=
          match re name with
          | some m =>
            if m = name then 100
            else if (lowerStr m).isPrefixOf (lowerStr name) then 50
            else 25
          | none => 0
        let descScore : Int := if (re description).isSome then 10 else 0
        nameScore + descScore
      | none =>
        let nameLower := lowerStr name
        let descriptionLower := lowerStr description
        let searchTermLower := lowerStr searchTerm
        let nameScore : Int :=
          if nameLower = searchTermLower then 100
          else if searchTermLower.isPrefixOf nameLower then 50
          else if containsStr nameLower searchTermLower then 25
          else 0
        let descScore : Int :=
          if containsStr descriptionLower searchTermLower then 10 else 0
        nameScore + descScore
    if 0 < score ∧ name.length < 20 then score + 5 else score

/-! ## Filter gate -/

/-- JS truthiness of an optional string filter (`undefined` and `""` falsy). -/
def optTruthy : Option Str → Bool
  | none => false
  | some s => !s.isEmpty

/-- The `Package | Library` union argument of `matchesFilters`. -/
inductive Entry
  | pkg (p : Package)
  | lib (l : Library)

/-- `Array.isArray(pkg.author) ? pkg.author : [pkg.author]`. -/
def Entry.authors : Entry → List Str
  | .pkg p => p.author
  | .lib l => [l.author]

/-- `'labels' in pkg`: a structural probe that is true exactly for packages. -/
def Entry.hasLabels : Entry → Bool
  | .pkg _ => true
  | .lib _ => false

def Entry.labelList : Entry → List Str
  | .pkg p => p.labels
  | .lib _ => []

/-- `PackageService.matchesFilters` (worker.ts lines 239-261).  Note the
label clause is gated on `'labels' in pkg`, so a `Library` is never
rejected by the label filter. -/
def matchesFilters (e : Entry) (f : SearchFilters) : Bool :=
  (match f.author with
   | some a =>
     if a.isEmpty then true
     else e.authors.any (fun au => containsStr (lowerStr au) (lowerStr a))
   | none => true)
  &&
  (match f.label with
   | some lb =>
     if lb.isEmpty || !e.hasLabels then true
     else e.labelList.any (fun l => containsStr (lowerStr l) (lowerStr lb))
   | none => true)

/-! ## `getLatestRelease` and the search pipeline -/

/-- The comparator `(a, b) => dateB - dateA` orders releases by descending
`new Date(date).getTime()`; `dateVal` is that external date semantics.
`Array.prototype.sort` is a stable sort, modelled by `insertionSort`. -/
def releaseSortRel (dateVal : Str → Int) (a b : Release) : Prop :=
  dateVal b.date ≤ dateVal a.date

instance (dateVal : Str → Int) : DecidableRel (releaseSortRel dateVal) :=
  fun a b => inferInstanceAs (Decidable (dateVal b.date ≤ dateVal a.date))

def sortReleases (dateVal : Str → Int) (rs : List Release) : List Release :=
  rs.insertionSort (releaseSortRel dateVal)

/-- `PackageService.getLatestRelease` (worker.ts lines 196-207).  Note the
sort happens in place on the caller's array; `searchPackagesPost` below
accounts for that mutation. -/
def getLatestRelease (dateVal : Str → Int) (releases : List Release) :
    Option Release :=
  if releases.isEmpty then none
  else (sortReleases dateVal releases).head?

/-- `if (filters.author) relevanceScore += 30` (lines 316-318 / 373-375). -/
def authorBonus (f : SearchFilters) : Int := if optTruthy f.author then 30 else 0

/-- `if (filters.label) relevanceScore += 25` — present only in the package
loop (lines 319-321); the library loop adds no label bonus. -/
def labelBonus (f : SearchFilters) : Int := if optTruthy f.label then 25 else 0

/-- Score of a package candidate (worker.ts lines 300-321). -/
def pkgRelevance (f : SearchFilters) (re : Option JsRegex) (p : Package) : Int :=
  (if !f.textQuery.isEmpty then
     calculateRelevance p.name p.description f.textQuery re
   else 20)
  + authorBonus f + labelBonus f

/-- Score of a library candidate (worker.ts lines 355-375). -/
def libRelevance (f : SearchFilters) (re : Option JsRegex) (l : Library) : Int :=
  (if !f.textQuery.isEmpty then
     calculateRelevance l.name l.description f.textQuery re
   else 20)
  + authorBonus f

/-- The `SearchResult` pushed for a package (worker.ts lines 326-338). -/
def pkgResult (dateVal : Str → Int) (repository : Str) (p : Package)
    (score : Int) : SearchResult :=
  { name := p.name
    description := p.description
    author := .many p.author
    homepage := p.homepage
    type := .package
    labels := some p.labels
    latest_version := (getLatestRelease dateVal p.releases).map (·.version)
    repository := repository
    relevanceScore := score
    issues := p.issues
    last_modified := some p.last_modified }

/-- The `SearchResult` pushed for a library (worker.ts lines 380-390). -/
def libResult (dateVal : Str → Int) (repository : Str) (l : Library)
    (score : Int) : SearchResult :=
  { name := l.name
    description := l.description
    author := .one l.author
    homepage := none
    type := .library
    labels := none
    latest_version := (getLatestRelease dateVal l.releases).map (·.version)
    repository := repository
    relevanceScore := score
    issues := l.issues
    last_modified := l.last_modified }

/-- The package loop (worker.ts lines 286-341): skip nameless or
descriptionless entries, apply the filter gate, include iff the total
score is positive. -/
def packageCandidates (f : SearchFilters) (re : Option JsRegex)
    (dateVal : Str → Int) (cd : ChannelData) : List SearchResult :=
  cd.packages_cache.flatMap fun entry =>
    entry.2.filterMap fun p =>
      if p.name.isEmpty || p.description.isEmpty then none
      else if !matchesFilters (.pkg p) f then none
      else if 0 < pkgRelevance f re p then
        some (pkgResult dateVal entry.1 p (pkgRelevance f re p))
      else none

/-- The library loop (worker.ts lines 343-393). -/
def libraryCandidates (f : SearchFilters) (re : Option JsRegex)
    (dateVal : Str → Int) (cd : ChannelData) : List SearchResult :=
  cd.libraries_cache.flatMap fun entry =>
    entry.2.filterMap fun l =>
      if l.name.isEmpty || l.description.isEmpty then none
      else if !matchesFilters (.lib l) f then none
      else if 0 < libRelevance f re l then
        some (libResult dateVal entry.1 l (libRelevance f re l))
      else none

/-- All candidates in enumeration order: packages first, then libraries. -/
def allCandidates (f : SearchFilters) (re : Option JsRegex)
    (dateVal : Str → Int) (cd : ChannelData) : List SearchResult :=
  packageCandidates f re dateVal cd ++ libraryCandidates f re dateVal cd

/-- `results.sort((a, b) => b.relevanceScore - a.relevanceScore)`: stable,
descending by score. -/
def scoreRel (a b : SearchResult) : Prop :=
  b.relevanceScore ≤ a.relevanceScore

instance : DecidableRel scoreRel :=
  fun a b => inferInstanceAs (Decidable (b.relevanceScore ≤ a.relevanceScore))

instance : IsTotal SearchResult scoreRel :=
  ⟨fun a b => le_total b.relevanceScore a.relevanceScore⟩

instance : IsTrans SearchResult scoreRel :=
  ⟨fun _ _ _ h1 h2 => le_trans h2 h1⟩

/-- `.sort(...).slice(0, 10)` (worker.ts lines 395-398). -/
def rankedResults (f : SearchFilters) (re : Option JsRegex)
    (dateVal : Str → Int) (cd : ChannelData) : List SearchResult :=
  ((allCandidates f re dateVal cd).insertionSort scoreRel).take 10

/-- `PackageService.searchPackages` (worker.ts lines 263-399); a thrown
`Error` is an `Except.error`.  `compile` is the external `RegExp`
constructor (`none` = compile failure). -/
def searchPackages (compile : Str → Option JsRegex) (dateVal : Str → Int)
    (cd : ChannelData) (query : Str) : Except Str (List SearchResult) :=
  if (trimStr query).isEmpty then .error (str "Please provide a search query.")
  else
    let filters := parseSearchQuery (trimStr query)
    if !filters.textQuery.isEmpty && isRegexPattern filters.textQuery then
      match compile (stripSlashes filters.textQuery) with
      | none => .error (str "Invalid regex pattern: " ++ filters.textQuery)
      | some re => .ok (rankedResults filters (some re) dateVal cd)
    else .ok (rankedResults filters none dateVal cd)

/-- The regex actually used for scoring on the non-error paths. -/
def regexOf (compile : Str → Option JsRegex) (f : SearchFilters) :
    Option JsRegex :=
  if !f.textQuery.isEmpty && isRegexPattern f.textQuery then
    compile (stripSlashes f.textQuery)
  else none

/-! ## Post-state of the catalog after `searchPackages`

`getLatestRelease` runs `releases.sort(...)` — an in-place sort of the
entry's own array — and it is called exactly for the entries that make it
into the result list (positive score, inside the `if (relevanceScore > 0)`
block) whose `releases` is non-empty (the early return skips the sort). -/

def touchedPkg (f : SearchFilters) (re : Option JsRegex) (p : Package) : Bool :=
  !p.name.isEmpty && !p.description.isEmpty && matchesFilters (.pkg p) f
    && decide (0 < pkgRelevance f re p) && !p.releases.isEmpty

def touchedLib (f : SearchFilters) (re : Option JsRegex) (l : Library) : Bool :=
  !l.name.isEmpty && !l.description.isEmpty && matchesFilters (.lib l) f
    && decide (0 < libRelevance f re l) && !l.releases.isEmpty

def pkgAfter (f : SearchFilters) (re : Option JsRegex) (dateVal : Str → Int)
    (p : Package) : Package :=
  if touchedPkg f re p then { p with releases := sortReleases dateVal p.releases }
  else p

def libAfter (f : SearchFilters) (re : Option JsRegex) (dateVal : Str → Int)
    (l : Library) : Library :=
  if touchedLib f re l then { l with releases := sortReleases dateVal l.releases }
  else l

def channelAfter (f : SearchFilters) (re : Option JsRegex) (dateVal : Str → Int)
    (cd : ChannelData) : ChannelData :=
  { cd with
    packages_cache :=
      cd.packages_cache.map (fun e => (e.1, e.2.map (pkgAfter f re dateVal)))
    libraries_cache :=
      cd.libraries_cache.map (fun e => (e.1, e.2.map (libAfter f re dateVal))) }

/-- The channel data after `searchPackages` ran (the two error paths throw
before either loop, leaving the catalog untouched). -/
def searchPackagesPost (compile : Str → Option JsRegex) (dateVal : Str → Int)
    (cd : ChannelData) (query : Str) : ChannelData :=
  if (trimStr query).isEmpty then cd
  else
    let filters := parseSearchQuery (trimStr query)
    if !filters.textQuery.isEmpty && isRegexPattern filters.textQuery then
      match compile (stripSlashes filters.textQuery) with
      | none => cd
      | some re => channelAfter filters (some re) dateVal cd
    else channelAfter filters none dateVal cd

/-! ## Interaction state machine (`handleDiscordInteraction`)

The response envelope is modelled by the fields the interaction logic
actually decides: the numeric response `type`, the `content`/`flags` of
text responses, which embed is shown (`EmbedModel` keeps the data that
varies: the navigated index and the result count) and the component rows
with their `custom_id`s and `disabled` flags. -/

def CHANNEL_MESSAGE_WITH_SOURCE : Nat := 4
def UPDATE_MESSAGE : Nat := 7

inductive EmbedModel
  | expired (message : Str)
  | detail (index : Nat) (total : Nat)
  | overview (total : Nat)
  | searchSummary (total : Nat)
deriving DecidableEq

structure ButtonModel where
  custom_id : Str
  disabled : Bool
deriving DecidableEq

inductive ComponentModel
  | button (b : ButtonModel)
  | selectMenu (custom_id : Str) (optionCount : Nat)
deriving DecidableEq

structure ResponseData where
  content : Option Str
  embeds : List EmbedModel
  flags : Option Nat
  components : List (List ComponentModel)
deriving DecidableEq

structure DiscordResponse where
  type : Nat
  data : Option ResponseData
deriving DecidableEq

/-- The Previous/Next/All-Packages action row rendered by the navigation
and selection handlers (worker.ts lines 1172-1198 and 1260-1286); the two
sites build the identical row. -/
structure NavRow where
  prev : ButtonModel
  next : ButtonModel
  list : ButtonModel
deriving DecidableEq

def navRow (searchId : Str) (index total : Nat) : NavRow :=
  { prev := { custom_id := str "prev_package_" ++ searchId ++ '_' :: natToStr index
              disabled := index == 0 }
    next := { custom_id := str "next_package_" ++ searchId ++ '_' :: natToStr index
              disabled := index == total - 1 }
    list := { custom_id := str "package_list_" ++ searchId, disabled := false } }

def NavRow.components (r : NavRow) : List ComponentModel :=
  [.button r.prev, .button r.next, .button r.list]

/-- The action row of the initial search response (worker.ts lines
1036-1062): Previous hard-disabled, Next disabled iff there is a single
result, index hard-coded to 0. -/
def initialNavRow (searchId : Str) (total : Nat) : NavRow :=
  { prev := { custom_id := str "prev_package_" ++ searchId ++ str "_0"
              disabled := true }
    next := { custom_id := str "next_package_" ++ searchId ++ str "_0"
              disabled := total == 1 }
    list := { custom_id := str "package_list_" ++ searchId, disabled := false } }

/-- The in-place detail render used by navigation and selection. -/
def navDetailResponse (searchId : Str) (index total : Nat) : DiscordResponse :=
  { type := UPDATE_MESSAGE
    data := some { content := none
                   embeds := [.detail index total]
                   flags := none
                   components := [(navRow searchId index total).components] } }

/-- Expired-session view of the navigation and list handlers
(worker.ts lines 1242-1254 and 1301-1314). -/
def expiredNavResponse : DiscordResponse :=
  { type := UPDATE_MESSAGE
    data := some { content := none
                   embeds := [.expired
                     (str "Search results have expired. Please search again.")]
                   flags := none
                   components := [] } }

/-- Expired-session view of the selection handler (worker.ts lines 1150-1164). -/
def expiredSelectResponse : DiscordResponse :=
  { type := UPDATE_MESSAGE
    data := some { content := none
                   embeds := [.expired (str
                     "Search results have expired or are no longer available. Please search again.")]
                   flags := none
                   components := [] } }

/-- `return { content: "Unknown command.", flags: 64 }` fallback. -/
def unknownCommandResponse : DiscordResponse :=
  { type := CHANNEL_MESSAGE_WITH_SOURCE
    data := some { content := some (str "Unknown command.")
                   embeds := []
                   flags := some 64
                   components := [] } }

/-- The KV session store (`getSearchResults`), read as pure state. -/
def SessionStore := Str → Option (List SearchResult)

/-- Decode of a navigation `custom_id` (worker.ts lines 1229-1236):
strip the prefix, split at the last underscore, `parseInt` the index,
step it by `±1`. -/
def navDecode (customId : Str) : Str × Option Int :=
  let isPrev := (str "prev_package_").isPrefixOf customId
  let pfx := if isPrev then str "prev_package_" else str "next_package_"
  let remaining := removeFirst pfx customId
  let idSplit :=
    match lastIndexOfChar '_' remaining with
    | some i => (remaining.take i, remaining.drop (i + 1))
    | none => (([] : Str), remaining)
  (idSplit.1,
   (parseIntJs idSplit.2).map (fun c => if isPrev then c - 1 else c + 1))

/-- The Previous/Next button handler (worker.ts lines 1229-1295).
`!results[newIndex]` is undefined-falsy exactly when `newIndex` is not a
valid index (negative, `NaN`, or `≥ length`). -/
def handleNavButton (store : SessionStore) (customId : Str) : DiscordResponse :=
  match store (navDecode customId).1, (navDecode customId).2 with
  | some results, some ni =>
    if 0 ≤ ni ∧ ni.toNat < results.length then
      navDetailResponse (navDecode customId).1 ni.toNat results.length
    else expiredNavResponse
  | some _, none => expiredNavResponse
  | none, _ => expiredNavResponse

/-- Decode of a selection value `"name|repository|index"` (worker.ts lines
1138-1139): `parseInt` of the third `split('|')` part (`NaN` if absent). -/
def selectDecode (v : Str) : Option Int :=
  ((splitOnChar '|' v)[2]?).bind parseIntJs

/-- The selection-menu handler body (worker.ts lines 1141-1206), after the
search id has been stripped from the `custom_id`. -/
def handleSelect (store : SessionStore) (searchId : Str) (selectedValue : Str) :
    DiscordResponse :=
  match store searchId, selectDecode selectedValue with
  | some results, some i =>
    if 0 ≤ i ∧ i.toNat < results.length then
      navDetailResponse searchId i.toNat results.length
    else expiredSelectResponse
  | some _, none => expiredSelectResponse
  | none, _ => expiredSelectResponse

/-- The "All Packages" handler (worker.ts lines 1297-1343). -/
def handleListButton (store : SessionStore) (customId : Str) : DiscordResponse :=
  let searchId := removeFirst (str "package_list_") customId
  match store searchId with
  | none => expiredNavResponse
  | some results =>
    { type := UPDATE_MESSAGE
      data := some { content := none
                     embeds := [.overview results.length]
                     flags := none
                     components := [[.selectMenu (str "package_select_" ++ searchId)
                       (min results.length 25)]] } }

/-- The `MESSAGE_COMPONENT` dispatcher (worker.ts lines 1131-1346).  An
empty or missing `values[0]` is falsy and falls through to the final
"Unknown command." response. -/
def handleComponent (store : SessionStore) (customId : Str)
    (values : List Str) : DiscordResponse :=
  if (str "package_select_").isPrefixOf customId then
    match values.head? with
    | some v =>
      if v.isEmpty then unknownCommandResponse
      else handleSelect store (removeFirst (str "package_select_") customId) v
    | none => unknownCommandResponse
  else if (str "prev_package_").isPrefixOf customId
       || (str "next_package_").isPrefixOf customId then
    handleNavButton store customId
  else if (str "package_list_").isPrefixOf customId then
    handleListButton store customId
  else unknownCommandResponse

/-- Outcome of the `/packages` command: the response plus the session
written to the store (`storeSearchResults`), if any. -/
structure CommandOutcome where
  response : DiscordResponse
  storedSession : Option (Str × List SearchResult)
deriving DecidableEq

/-- Ephemeral error response of the command's `catch` block
(worker.ts lines 1080-1092). -/
def ephemeralError (e : Str) : DiscordResponse :=
  { type := CHANNEL_MESSAGE_WITH_SOURCE
    data := some { content := some e
                   embeds := []
                   flags := some 64
                   components := [] } }

/-- The `/packages` command handler (worker.ts lines 1001-1092).
`searchId` stands for the random id generated in
`createSearchResultsEmbeds`; the zero- and one-result responses carry no
interactive components and are summarized by `searchSummary`. -/
def handlePackagesCommand (compile : Str → Option JsRegex)
    (dateVal : Str → Int) (cd : ChannelData) (searchId : Str)
    (queryOpt : Option Str) : CommandOutcome :=
  match queryOpt with
  | none =>
    { response := ephemeralError (str "Please provide a search query.")
      storedSession := none }
  | some query =>
    match searchPackages compile dateVal cd query with
    | .error e => { response := ephemeralError e, storedSession := none }
    | .ok results =>
      if 1 < results.length then
        { response :=
            { type := CHANNEL_MESSAGE_WITH_SOURCE
              data := some { content := none
                             embeds := [.detail 0 results.length]
                             flags := none
                             components := [(initialNavRow searchId
                               results.length).components] } }
          storedSession := some (searchId, results) }
      else
        { response :=
            { type := CHANNEL_MESSAGE_WITH_SOURCE
              data := some { content := none
                             embeds := [.searchSummary results.length]
                             flags := none
                             components := [] } }
          storedSession := none }

/-! ## Failure predicates for the navigation handlers -/

/-- A navigation event whose session lookup misses, whose index fails to
parse, or whose target index is outside the stored list. -/
def navFails (store : SessionStore) (customId : Str) : Prop :=
  match store (navDecode customId).1, (navDecode customId).2 with
  | some results, some ni => ¬(0 ≤ ni ∧ ni.toNat < results.length)
  | some _, none => True
  | none, _ => True

/-- Same for a selection-menu event. -/
def selectFails (store : SessionStore) (searchId selectedValue : Str) : Prop :=
  match store searchId, selectDecode selectedValue with
  | some results, some i => ¬(0 ≤ i ∧ i.toNat < results.length)
  | some _, none => True
  | none, _ => True

/-! ## Helper lemmas -/

theorem searchPackages_ok {compile : Str → Option JsRegex} {dateVal : Str → Int}
    {cd : ChannelData} {query : Str} {res : List SearchResult}
    (h : searchPackages compile dateVal cd query = .ok res) :
    res = rankedResults (parseSearchQuery (trimStr query))
        (regexOf compile (parseSearchQuery (trimStr query))) dateVal cd := by
  unfold searchPackages at h
  unfold regexOf
  split at h
  · cases h
  · dsimp only at h
    split at h
    · next hcond =>
      split at h
      · cases h
      · next re heq =>
        rw [if_pos hcond, heq]
        cases h
        rfl
    · next hcond =>
      rw [if_neg hcond]
      cases h
      rfl

theorem filter_eq_orderedInsert (s : Int) (x : SearchResult)
    (m : List SearchResult) :
    (m.orderedInsert scoreRel x).filter (fun r => r.relevanceScore == s)
      = (if x.relevanceScore == s then [x] else [])
        ++ m.filter (fun r => r.relevanceScore == s) := by
  induction m with
  | nil =>
    by_cases hx : x.relevanceScore = s <;>
      simp [List.orderedInsert, List.filter_singleton, hx]
  | cons y ys ih =>
    rw [List.orderedInsert]
    by_cases hr : scoreRel x y
    · rw [if_pos hr]
      simp only [List.filter_cons]
      split <;> split <;> simp_all
    · rw [if_neg hr]
      rw [List.filter_cons, List.filter_cons, ih]
      by_cases hx : x.relevanceScore = s
      · have hlt : x.relevanceScore < y.relevanceScore := by
          unfold scoreRel at hr; omega
        have hy : (y.relevanceScore == s) = false := by
          simp only [beq_eq_false_iff_ne, ne_eq]; omega
        simp [hy, hx]
      · simp only [beq_iff_eq, hx, if_false]
        split <;> simp

theorem filter_score_insertionSort (s : Int) (l : List SearchResult) :
    (l.insertionSort scoreRel).filter (fun r => r.relevanceScore == s)
      = l.filter (fun r => r.relevanceScore == s) := by
  induction l with
  | nil => rfl
  | cons x xs ih =>
    rw [List.insertionSort, filter_eq_orderedInsert, ih, List.filter_cons]
    by_cases hx : (x.relevanceScore == s) = true <;> simp [hx]

theorem mem_rankedResults {r : SearchResult} {f : SearchFilters}
    {re : Option JsRegex} {dateVal : Str → Int} {cd : ChannelData}
    (h : r ∈ rankedResults f re dateVal cd) :
    r ∈ allCandidates f re dateVal cd := by
  have h1 : r ∈ (allCandidates f re dateVal cd).insertionSort scoreRel :=
    (List.take_sublist _ _).subset h
  exact (List.mem_insertionSort scoreRel).1 h1

theorem mem_packageCandidates {r : SearchResult} {f : SearchFilters}
    {re : Option JsRegex} {dateVal : Str → Int} {cd : ChannelData} :
    r ∈ packageCandidates f re dateVal cd ↔
      ∃ entry ∈ cd.packages_cache, ∃ p ∈ entry.2,
        (p.name.isEmpty || p.description.isEmpty) = false ∧
        matchesFilters (.pkg p) f = true ∧ 0 < pkgRelevance f re p ∧
        r = pkgResult dateVal entry.1 p (pkgRelevance f re p) := by
  unfold packageCandidates
  rw [List.mem_flatMap]
  constructor
  · rintro ⟨entry, hentry, hr⟩
    rw [List.mem_filterMap] at hr
    obtain ⟨p, hp, heq⟩ := hr
    refine ⟨entry, hentry, p, hp, ?_⟩
    split_ifs at heq with h1 h2 h3
    cases heq
    exact ⟨by simpa using h1, by simpa using h2, h3, rfl⟩
  · rintro ⟨entry, hentry, p, hp, h1, h2, h3, rfl⟩
    refine ⟨entry, hentry, ?_⟩
    rw [List.mem_filterMap]
    exact ⟨p, hp, by simp [h1, h2, h3]⟩

theorem mem_libraryCandidates {r : SearchResult} {f : SearchFilters}
    {re : Option JsRegex} {dateVal : Str → Int} {cd : ChannelData} :
    r ∈ libraryCandidates f re dateVal cd ↔
      ∃ entry ∈ cd.libraries_cache, ∃ l ∈ entry.2,
        (l.name.isEmpty || l.description.isEmpty) = false ∧
        matchesFilters (.lib l) f = true ∧ 0 < libRelevance f re l ∧
        r = libResult dateVal entry.1 l (libRelevance f re l) := by
  unfold libraryCandidates
  rw [List.mem_flatMap]
  constructor
  · rintro ⟨entry, hentry, hr⟩
    rw [List.mem_filterMap] at hr
    obtain ⟨l, hl, heq⟩ := hr
    refine ⟨entry, hentry, l, hl, ?_⟩
    split_ifs at heq with h1 h2 h3
    cases heq
    exact ⟨by simpa using h1, by simpa using h2, h3, rfl⟩
  · rintro ⟨entry, hentry, l, hl, h1, h2, h3, rfl⟩
    refine ⟨entry, hentry, ?_⟩
    rw [List.mem_filterMap]
    exact ⟨l, hl, by simp [h1, h2, h3]⟩

theorem handleNavButton_cases (store : SessionStore) (customId : Str) :
    handleNavButton store customId = expiredNavResponse ∨
    ∃ results ni, store (navDecode customId).1 = some results ∧
      (navDecode customId).2 = some ni ∧ 0 ≤ ni ∧ ni.toNat < results.length ∧
      handleNavButton store customId
        = navDetailResponse (navDecode customId).1 ni.toNat results.length := by
  unfold handleNavButton
  cases h1 : store (navDecode customId).1 with
  | none => exact Or.inl rfl
  | some results =>
    cases h2 : (navDecode customId).2 with
    | none => exact Or.inl rfl
    | some ni =>
      by_cases h3 : 0 ≤ ni ∧ ni.toNat < results.length
      · refine Or.inr ⟨results, ni, rfl, rfl, h3.1, h3.2, ?_⟩
        show (if 0 ≤ ni ∧ ni.toNat < results.length then
            navDetailResponse (navDecode customId).1 ni.toNat results.length
          else expiredNavResponse) = _
        rw [if_pos h3]
      · refine Or.inl ?_
        show (if 0 ≤ ni ∧ ni.toNat < results.length then
            navDetailResponse (navDecode customId).1 ni.toNat results.length
          else expiredNavResponse) = _
        rw [if_neg h3]

theorem handleNavButton_expired {store : SessionStore} {customId : Str}
    (h : navFails store customId) :
    handleNavButton store customId = expiredNavResponse := by
  rcases handleNavButton_cases store customId with he | ⟨results, ni, h1, h2, h3, h4, _⟩
  · exact he
  · exfalso
    unfold navFails at h
    rw [h1, h2] at h
    exact h ⟨h3, h4⟩

theorem handleSelect_expired {store : SessionStore} {searchId selectedValue : Str}
    (h : selectFails store searchId selectedValue) :
    handleSelect store searchId selectedValue = expiredSelectResponse := by
  unfold selectFails at h
  unfold handleSelect
  cases h1 : store searchId with
  | none => rfl
  | some results =>
    cases h2 : selectDecode selectedValue with
    | none => rfl
    | some i =>
      rw [h1, h2] at h
      show (if 0 ≤ i ∧ i.toNat < results.length then
          navDetailResponse searchId i.toNat results.length
        else expiredSelectResponse) = _
      exact if_neg h

/-! ## Spec-level restatement of the parser (for claim C2) -/

/-- "Last occurrence of a key wins": the value of the last token in `ts`
whose lower-cased key equals `key`, defaulting to `d`. -/
def lastValue (key : Str) : List Token → Option Str → Option Str
  | [], d => d
  | t :: ts, d =>
    lastValue key ts (if lowerStr t.key = key then some t.value else d)

/-- The residual after removing every scanned token's first occurrence,
re-trimming after each removal. -/
def residualAfterRemovals (rem : Str) (ts : List Token) : Str :=
  ts.foldl (fun r t => trimStr (removeFirst (tokenFull t) r)) rem

/-- The parser contract restated in the spec's own terms (as amended):
every scanned `key:value` token — recognized or not — is removed from the
residual, and `author`/`label` take the value of the last token whose key
lower-cases to them. -/
def parseSearchQuerySpec (query : Str) : SearchFilters :=
  { author := lastValue (str "author") (scanTokens query) none
    label := lastValue (str "label") (scanTokens query) none
    textQuery := trimStr (residualAfterRemovals query (scanTokens query)) }

theorem foldl_recognizeStep (ts : List Token) (a lb : Option Str) (rem : Str) :
    ts.foldl recognizeStep (a, lb, rem)
      = (lastValue (str "author") ts a, lastValue (str "label") ts lb,
         residualAfterRemovals rem ts) := by
  induction ts generalizing a lb rem with
  | nil => rfl
  | cons t ts ih =>
    have hstep : List.foldl recognizeStep (a, lb, rem) (t :: ts)
        = List.foldl recognizeStep (recognizeStep (a, lb, rem) t) ts := rfl
    have hres : residualAfterRemovals rem (t :: ts)
        = residualAfterRemovals (trimStr (removeFirst (tokenFull t) rem)) ts := rfl
    rw [hstep, hres]
    by_cases ha : lowerStr t.key = str "author"
    · have hlb : ¬ lowerStr t.key = str "label" := by rw [ha]; decide
      have e0 : recognizeStep (a, lb, rem) t
          = (some t.value, lb, trimStr (removeFirst (tokenFull t) rem)) := by
        unfold recognizeStep
        rw [if_pos ha]
      rw [e0, ih, lastValue, lastValue, if_pos ha, if_neg hlb]
    · by_cases hl : lowerStr t.key = str "label"
      · have e0 : recognizeStep (a, lb, rem) t
            = (a, some t.value, trimStr (removeFirst (tokenFull t) rem)) := by
          unfold recognizeStep
          rw [if_neg ha, if_pos hl]
        rw [e0, ih, lastValue, lastValue, if_neg ha, if_pos hl]
      · have e0 : recognizeStep (a, lb, rem) t
            = (a, lb, trimStr (removeFirst (tokenFull t) rem)) := by
          unfold recognizeStep
          rw [if_neg ha, if_neg hl]
        rw [e0, ih, lastValue, lastValue, if_neg ha, if_neg hl]

/-! ## Concrete fixtures for witnesses and counterexamples

`compileNone` is a `RegExp` constructor that always fails (the regex paths
of the fixtures either never compile a pattern or exercise the failure
path).  `dateLen` is a concrete stand-in for `new Date(s).getTime()`; it
is monotone on the fixture date strings (`"a"` before `"bb"`), matching
the real `Date` ordering for increasing dates. -/

def compileNone : Str → Option JsRegex := fun _ => none

def dateLen : Str → Int := fun s => (s.length : Int)

def relA : Release :=
  { sublime_text := str "*", platforms := [str "*"], version := str "1.0.0"
    url := str "u", date := str "a" }

def relB : Release :=
  { sublime_text := str "*", platforms := [str "*"], version := str "2.0.0"
    url := str "u", date := str "bb" }

def pkgTheme : Package :=
  { name := str "ThemePro", author := [str "Alice B"]
    last_modified := str "2024-01-01", releases := [], homepage := none
    description := str "Color tools", previous_names := []
    labels := [str "snippets", str "color"]
    readme := none, issues := none, donate := none, buy := none }

def catTheme : ChannelData :=
  { schema_version := str "4.0.0", repositories := [str "r"]
    packages_cache := [(str "r", [pkgTheme])], libraries_cache := [] }

def resTheme : SearchResult := pkgResult dateLen (str "r") pkgTheme 110

def libB : Library :=
  { name := str "B", author := str "bob", description := str "d"
    issues := none, releases := [], last_modified := none }

def catLibOnly : ChannelData :=
  { schema_version := str "4", repositories := []
    packages_cache := [], libraries_cache := [(str "r", [libB])] }

def resLibB : SearchResult := libResult dateLen (str "r") libB 105

def pkgZzz : Package :=
  { name := str "zzz", author := [str "alice"], last_modified := str "2024"
    releases := [], homepage := none, description := str "nothing"
    previous_names := [], labels := []
    readme := none, issues := none, donate := none, buy := none }

def catZzz : ChannelData :=
  { schema_version := str "4", repositories := []
    packages_cache := [(str "r", [pkgZzz])], libraries_cache := [] }

def resZzz : SearchResult := pkgResult dateLen (str "r") pkgZzz 30

def pkgSnip : Package :=
  { name := str "A", author := [str "x"], last_modified := str "2024"
    releases := [], homepage := none, description := str "d"
    previous_names := [], labels := [str "snippets"]
    readme := none, issues := none, donate := none, buy := none }

def libY : Library :=
  { name := str "B", author := str "y", description := str "d"
    issues := none, releases := [], last_modified := none }

def catMixed : ChannelData :=
  { schema_version := str "4", repositories := []
    packages_cache := [(str "r", [pkgSnip])]
    libraries_cache := [(str "r", [libY])] }

def resSnip : SearchResult := pkgResult dateLen (str "r") pkgSnip 45

def resLibY : SearchResult := libResult dateLen (str "r") libY 20

def pkgRelMut : Package :=
  { name := str "B", author := [str "x"], last_modified := str "2024"
    releases := [relA, relB], homepage := none, description := str "d"
    previous_names := [], labels := []
    readme := none, issues := none, donate := none, buy := none }

def catRelMut : ChannelData :=
  { schema_version := str "4", repositories := []
    packages_cache := [(str "r", [pkgRelMut])], libraries_cache := [] }

def pkgLsp : Package :=
  { name := str "LSP", author := [str "al"], last_modified := str "2024"
    releases := [], homepage := none, description := str "d"
    previous_names := [], labels := []
    readme := none, issues := none, donate := none, buy := none }

def catLsp : ChannelData :=
  { schema_version := str "4", repositories := []
    packages_cache := [(str "r", [pkgLsp])], libraries_cache := [] }

def resLsp : SearchResult := pkgResult dateLen (str "r") pkgLsp 135

def storeEmpty : SessionStore := fun _ => none

/-! ## Claim C1 -/

/-- C1 counterexample: with the label filter set (`label:snippets`), the
library `libB` still appears in the results of `searchPackages` — the
label gate is skipped for entries without a `labels` field — refuting
"an entry appears in the result sequence only if it is a Package". -/
theorem c1_counterexample :
    searchPackages compileNone dateLen catLibOnly (str "label:snippets B")
      = .ok [resLibB]
    ∧ resLibB.type = .library
    ∧ ResultType.library ≠ ResultType.package := by
  refine ⟨by rfl, rfl, by decide⟩

/-- C1 (amended): when the label filter is set, the label gate constrains
only `Package` entries: every result of type `package` has at least one
label that case-insensitively contains the filter value; `Library`
entries pass the label gate untouched and may appear in the results. -/
theorem c1_label_filter_packages_only (compile : Str → Option JsRegex)
    (dateVal : Str → Int) (cd : ChannelData) (query : Str)
    (res : List SearchResult) (lbl : Str)
    (h : searchPackages compile dateVal cd query = .ok res)
    (hl : (parseSearchQuery (trimStr query)).label = some lbl)
    (hlne : lbl.isEmpty = false) :
    ∀ r ∈ res, r.type = .package →
      ∃ ls, r.labels = some ls ∧
        ls.any (fun l => containsStr (lowerStr l) (lowerStr lbl)) = true := by
  obtain rfl := searchPackages_ok h
  intro r hr hty
  rcases List.mem_append.1 (mem_rankedResults hr) with hp | hlm
  · obtain ⟨entry, hentry, p, hpm, h1, h2, h3, rfl⟩ := mem_packageCandidates.1 hp
    refine ⟨p.labels, rfl, ?_⟩
    unfold matchesFilters at h2
    rw [Bool.and_eq_true] at h2
    have h2b := h2.2
    rw [hl] at h2b
    simpa [hlne, Entry.hasLabels, Entry.labelList] using h2b
  · obtain ⟨entry, hentry, l, hlm2, h1, h2, h3, rfl⟩ := mem_libraryCandidates.1 hlm
    exact absurd hty (by simp [libResult])

/-- Witness for C1 (amended) at a concrete catalog, query and result. -/
theorem c1_witness :
    ∃ ls, resSnip.labels = some ls ∧
      ls.any (fun l => containsStr (lowerStr l) (lowerStr (str "snippets"))) = true :=
  c1_label_filter_packages_only compileNone dateLen catMixed
    (str "label:snippets") [resSnip, resLibY] (str "snippets")
    (by rfl) (by rfl) (by decide) resSnip (by decide) (by decide)

/-! ## Claim C2 -/

/-- C2 counterexample: the unrecognized token `foo:bar` is removed from
the residual text query rather than left in it: parsing
`"foo:bar theme"` yields `textQuery = "theme"`, not `"foo:bar theme"`. -/
theorem c2_counterexample :
    parseSearchQuery (str "foo:bar theme")
      = { author := none, label := none, textQuery := str "theme" }
    ∧ str "theme" ≠ str "foo:bar theme" := by
  refine ⟨by decide, by decide⟩

/-- C2 (amended): `parseSearchQuery` removes every scanned `key:value`
token from the residual — recognized or not, so unrecognized tokens are
silently dropped — re-trimming after each removal; the recognized keys
`author` and `label` (matched case-insensitively) set the corresponding
filter with the last occurrence of a key winning.  Stated as equality
with the spec-level parser `parseSearchQuerySpec`. -/
theorem c2_parse_refines_spec (query : Str) :
    parseSearchQuery query = parseSearchQuerySpec query := by
  unfold parseSearchQuery parseSearchQuerySpec
  rw [foldl_recognizeStep]

/-! ## Claim C3 -/

/-- C3 counterexample: on the spec's own scenario the total relevance is
110, not 85 — `"ThemePro"` lower-cases to `"themepro"`, which *starts
with* `"theme"` (+50), it does not merely contain it (+25). -/
theorem c3_counterexample :
    searchPackages compileNone dateLen catTheme
        (str "author:alice label:snippets theme") = .ok [resTheme]
    ∧ resTheme.relevanceScore = 110
    ∧ ¬ resTheme.relevanceScore = 85 := by
  refine ⟨by rfl, by decide, by decide⟩

/-- C3 (amended): for the scenario query and entry, the parsed filters
match the entry and the total relevance is exactly
50 (name starts-with) + 5 (short name) + 30 (author bonus) + 25 (label
bonus) = 110. -/
theorem c3_scenario_score_110 :
    matchesFilters (.pkg pkgTheme)
        (parseSearchQuery (trimStr (str "author:alice label:snippets theme")))
      = true
    ∧ searchPackages compileNone dateLen catTheme
        (str "author:alice label:snippets theme") = .ok [resTheme]
    ∧ resTheme.relevanceScore = 50 + 5 + 30 + 25 := by
  refine ⟨by decide, by rfl, by decide⟩

/-! ## Claim C4 -/

/-- C4: every successful search returns at most 10 results, sorted in
descending relevance order, and — by stability of `Array.prototype.sort`
— for each score the returned results of that score are an initial
segment of the candidates of that score in enumeration order (packages
before libraries, each in catalog iteration order). -/
theorem c4_sorted_truncated_stable (compile : Str → Option JsRegex)
    (dateVal : Str → Int) (cd : ChannelData) (query : Str)
    (res : List SearchResult)
    (h : searchPackages compile dateVal cd query = .ok res) :
    res.length ≤ 10 ∧ List.Sorted scoreRel res ∧
      ∀ s : Int, ∃ t,
        res.filter (fun r => r.relevanceScore == s) ++ t
          = (allCandidates (parseSearchQuery (trimStr query))
              (regexOf compile (parseSearchQuery (trimStr query)))
              dateVal cd).filter (fun r => r.relevanceScore == s) := by
  obtain rfl := searchPackages_ok h
  unfold rankedResults
  refine ⟨List.length_take_le _ _, ?_, ?_⟩
  · exact List.Pairwise.sublist (List.take_sublist _ _)
      (List.sorted_insertionSort scoreRel _)
  · intro s
    refine ⟨(((allCandidates (parseSearchQuery (trimStr query))
        (regexOf compile (parseSearchQuery (trimStr query)))
        dateVal cd).insertionSort scoreRel).drop 10).filter
        (fun r => r.relevanceScore == s), ?_⟩
    rw [← List.filter_append, List.take_append_drop]
    exact filter_score_insertionSort s _

/-- Witness for C4 at a concrete catalog and query. -/
theorem c4_witness :
    ([resTheme] : List SearchResult).length ≤ 10
    ∧ List.Sorted scoreRel [resTheme]
    ∧ ∀ s : Int, ∃ t,
        ([resTheme] : List SearchResult).filter (fun r => r.relevanceScore == s) ++ t
          = (allCandidates
              (parseSearchQuery (trimStr (str "author:alice label:snippets theme")))
              (regexOf compileNone
                (parseSearchQuery (trimStr (str "author:alice label:snippets theme"))))
              dateLen catTheme).filter (fun r => r.relevanceScore == s) :=
  c4_sorted_truncated_stable compileNone dateLen catTheme
    (str "author:alice label:snippets theme") [resTheme] (by rfl)

/-! ## Claim C7 -/

/-- C7: when the parsed text query is classified as a regex and the
stripped pattern fails to compile, the whole search aborts with the
`Invalid regex pattern` error before any candidate is scored (no partial
result set), and the command handler surfaces it as an ephemeral (flag
64) message with no session stored. -/
theorem c7_regex_failure_aborts (compile : Str → Option JsRegex)
    (dateVal : Str → Int) (cd : ChannelData) (query : Str) (searchId : Str)
    (hne : (trimStr query).isEmpty = false)
    (hreg : (!(parseSearchQuery (trimStr query)).textQuery.isEmpty
        && isRegexPattern (parseSearchQuery (trimStr query)).textQuery) = true)
    (hc : compile (stripSlashes (parseSearchQuery (trimStr query)).textQuery)
        = none) :
    searchPackages compile dateVal cd query
      = .error (str "Invalid regex pattern: "
          ++ (parseSearchQuery (trimStr query)).textQuery)
    ∧ handlePackagesCommand compile dateVal cd searchId (some query)
      = { response := ephemeralError (str "Invalid regex pattern: "
            ++ (parseSearchQuery (trimStr query)).textQuery)
          storedSession := none } := by
  have hs : searchPackages compile dateVal cd query
      = .error (str "Invalid regex pattern: "
          ++ (parseSearchQuery (trimStr query)).textQuery) := by
    unfold searchPackages
    rw [if_neg (by simp [hne])]
    dsimp only
    rw [if_pos hreg, hc]
  refine ⟨hs, ?_⟩
  rw [handlePackagesCommand, hs]

/-- Witness for C7: the query `a[b` is classified as a regex (it contains
`[`) and `compileNone` rejects every pattern. -/
theorem c7_witness :
    searchPackages compileNone dateLen catTheme (str "a[b")
      = .error (str "Invalid regex pattern: "
          ++ (parseSearchQuery (trimStr (str "a[b"))).textQuery)
    ∧ handlePackagesCommand compileNone dateLen catTheme (str "sid")
        (some (str "a[b"))
      = { response := ephemeralError (str "Invalid regex pattern: "
            ++ (parseSearchQuery (trimStr (str "a[b"))).textQuery)
          storedSession := none } :=
  c7_regex_failure_aborts compileNone dateLen catTheme (str "a[b") (str "sid")
    (by rfl) (by rfl) (by rfl)

/-! ## Claim C8 -/

/-- A filter set with the author/label dimensions removed and only the
text query kept. -/
def noFilters (t : Str) : SearchFilters :=
  { author := none, label := none, textQuery := t }

/-- The filter bonuses an entry of the given result type receives
(packages: author and label bonus; libraries: author bonus only). -/
def typeBonus (f : SearchFilters) : ResultType → Int
  | .package => authorBonus f + labelBonus f
  | .library => authorBonus f

/-- C8 counterexample: with the one-package catalog `catZzz`,
`author:alice LSP` returns the package (score 0 text + 30 author bonus)
while the same text query without filters returns nothing — hence the
returned set with filters is not a subset of the returned set without
them. -/
theorem c8_counterexample :
    searchPackages compileNone dateLen catZzz (str "author:alice LSP")
      = .ok [resZzz]
    ∧ searchPackages compileNone dateLen catZzz (str "LSP")
      = .ok ([] : List SearchResult)
    ∧ resZzz ∉ ([] : List SearchResult) := by
  refine ⟨by rfl, by rfl, by decide⟩

/-- C8 (amended): the subset relation holds at the pre-truncation
candidate level for entries whose score exceeds their filter bonuses
(i.e. whose text relevance is positive): every such returned entry also
occurs, by name/repository/type, among the candidates of the same text
query with the author/label filters removed.  (The unamended claim fails
both for entries kept alive by filter bonuses alone and because the
unfiltered top-10 truncation can evict entries.) -/
theorem c8_filtered_in_unfiltered_candidates (compile : Str → Option JsRegex)
    (dateVal : Str → Int) (cd : ChannelData) (query : Str)
    (res : List SearchResult)
    (h : searchPackages compile dateVal cd query = .ok res) :
    ∀ r ∈ res,
      typeBonus (parseSearchQuery (trimStr query)) r.type < r.relevanceScore →
      ∃ r' ∈ allCandidates
          (noFilters (parseSearchQuery (trimStr query)).textQuery)
          (regexOf compile (parseSearchQuery (trimStr query))) dateVal cd,
        r'.name = r.name ∧ r'.repository = r.repository ∧ r'.type = r.type := by
  obtain rfl := searchPackages_ok h
  intro r hr hlt
  rcases List.mem_append.1 (mem_rankedResults hr) with hp | hlm
  · obtain ⟨entry, hentry, p, hpm, h1, h2, h3, rfl⟩ := mem_packageCandidates.1 hp
    set f := parseSearchQuery (trimStr query) with hf
    set re := regexOf compile f with hre
    have hlt' : authorBonus f + labelBonus f < pkgRelevance f re p := hlt
    have htext : 0 < (if !f.textQuery.isEmpty then
        calculateRelevance p.name p.description f.textQuery re else 20) := by
      have hdecomp : pkgRelevance f re p
          = (if !f.textQuery.isEmpty then
              calculateRelevance p.name p.description f.textQuery re else 20)
            + authorBonus f + labelBonus f := rfl
      omega
    have hrel : pkgRelevance (noFilters f.textQuery) re p
        = (if !f.textQuery.isEmpty then
            calculateRelevance p.name p.description f.textQuery re else 20) := by
      show (if !f.textQuery.isEmpty then
          calculateRelevance p.name p.description f.textQuery re else 20)
        + (0 : Int) + (0 : Int) = _
      omega
    refine ⟨pkgResult dateVal entry.1 p (pkgRelevance (noFilters f.textQuery) re p),
      ?_, rfl, rfl, rfl⟩
    exact List.mem_append.2 (Or.inl (mem_packageCandidates.2
      ⟨entry, hentry, p, hpm, h1, rfl, by rw [hrel]; exact htext, rfl⟩))
  · obtain ⟨entry, hentry, l, hlm2, h1, h2, h3, rfl⟩ := mem_libraryCandidates.1 hlm
    set f := parseSearchQuery (trimStr query) with hf
    set re := regexOf compile f with hre
    have hlt' : authorBonus f < libRelevance f re l := hlt
    have htext : 0 < (if !f.textQuery.isEmpty then
        calculateRelevance l.name l.description f.textQuery re else 20) := by
      have hdecomp : libRelevance f re l
          = (if !f.textQuery.isEmpty then
              calculateRelevance l.name l.description f.textQuery re else 20)
            + authorBonus f := rfl
      omega
    have hrel : libRelevance (noFilters f.textQuery) re l
        = (if !f.textQuery.isEmpty then
            calculateRelevance l.name l.description f.textQuery re else 20) := by
      show (if !f.textQuery.isEmpty then
          calculateRelevance l.name l.description f.textQuery re else 20)
        + (0 : Int) = _
      omega
    refine ⟨libResult dateVal entry.1 l (libRelevance (noFilters f.textQuery) re l),
      ?_, rfl, rfl, rfl⟩
    exact List.mem_append.2 (Or.inr (mem_libraryCandidates.2
      ⟨entry, hentry, l, hlm2, h1, rfl, by rw [hrel]; exact htext, rfl⟩))

/-- Witness for C8 (amended): `author:al LSP` on `catLsp` returns the
package with score 135 > 30 bonus, and it indeed occurs among the
unfiltered candidates for `LSP`. -/
theorem c8_witness :
    ∃ r' ∈ allCandidates
        (noFilters (parseSearchQuery (trimStr (str "author:al LSP"))).textQuery)
        (regexOf compileNone (parseSearchQuery (trimStr (str "author:al LSP"))))
        dateLen catLsp,
      r'.name = resLsp.name ∧ r'.repository = resLsp.repository
        ∧ r'.type = resLsp.type :=
  c8_filtered_in_unfiltered_candidates compileNone dateLen catLsp
    (str "author:al LSP") [resLsp] (by rfl) resLsp (by decide) (by decide)

/-! ## Claim C9 -/

/-- The frame of a package across a search: every field unchanged except
that `releases` may be reordered (it stays a permutation). -/
def pkgFrame (p q : Package) : Prop :=
  q.name = p.name ∧ q.author = p.author ∧ q.last_modified = p.last_modified ∧
  q.homepage = p.homepage ∧ q.description = p.description ∧
  q.previous_names = p.previous_names ∧ q.labels = p.labels ∧
  q.readme = p.readme ∧ q.issues = p.issues ∧ q.donate = p.donate ∧
  q.buy = p.buy ∧ q.releases.Perm p.releases

/-- Same for a library. -/
def libFrame (l m : Library) : Prop :=
  m.name = l.name ∧ m.author = l.author ∧ m.description = l.description ∧
  m.issues = l.issues ∧ m.last_modified = l.last_modified ∧
  m.releases.Perm l.releases

/-- The catalog-level frame: identical shape, entries related pointwise. -/
def channelFrame (cd post : ChannelData) : Prop :=
  post.schema_version = cd.schema_version ∧
  post.repositories = cd.repositories ∧
  List.Forall₂ (fun e e' => e'.1 = e.1 ∧ List.Forall₂ pkgFrame e.2 e'.2)
    cd.packages_cache post.packages_cache ∧
  List.Forall₂ (fun e e' => e'.1 = e.1 ∧ List.Forall₂ libFrame e.2 e'.2)
    cd.libraries_cache post.libraries_cache

theorem forall₂_self_map {α β : Type} (R : α → β → Prop) (f : α → β)
    (l : List α) (h : ∀ x ∈ l, R x (f x)) : List.Forall₂ R l (l.map f) := by
  induction l with
  | nil => exact List.Forall₂.nil
  | cons x xs ih =>
    exact List.Forall₂.cons (h x (by simp))
      (ih (fun y hy => h y (by simp [hy])))

theorem forall₂_self {α : Type} {R : α → α → Prop} {l : List α}
    (h : ∀ x ∈ l, R x x) : List.Forall₂ R l l := by
  induction l with
  | nil => exact List.Forall₂.nil
  | cons x xs ih =>
    exact List.Forall₂.cons (h x (by simp)) (ih (fun y hy => h y (by simp [hy])))

theorem pkgFrame_refl (p : Package) : pkgFrame p p :=
  ⟨rfl, rfl, rfl, rfl, rfl, rfl, rfl, rfl, rfl, rfl, rfl, List.Perm.refl _⟩

theorem libFrame_refl (l : Library) : libFrame l l :=
  ⟨rfl, rfl, rfl, rfl, rfl, List.Perm.refl _⟩

theorem pkgFrame_after (f : SearchFilters) (re : Option JsRegex)
    (dateVal : Str → Int) (p : Package) : pkgFrame p (pkgAfter f re dateVal p) := by
  unfold pkgAfter
  split
  · exact ⟨rfl, rfl, rfl, rfl, rfl, rfl, rfl, rfl, rfl, rfl, rfl,
      List.perm_insertionSort _ _⟩
  · exact pkgFrame_refl p

theorem libFrame_after (f : SearchFilters) (re : Option JsRegex)
    (dateVal : Str → Int) (l : Library) : libFrame l (libAfter f re dateVal l) := by
  unfold libAfter
  split
  · exact ⟨rfl, rfl, rfl, rfl, rfl, List.perm_insertionSort _ _⟩
  · exact libFrame_refl l

theorem channelFrame_refl (cd : ChannelData) : channelFrame cd cd :=
  ⟨rfl, rfl,
   forall₂_self (fun _ _ => ⟨rfl, forall₂_self (fun p _ => pkgFrame_refl p)⟩),
   forall₂_self (fun _ _ => ⟨rfl, forall₂_self (fun l _ => libFrame_refl l)⟩)⟩

theorem channelAfter_frame (f : SearchFilters) (re : Option JsRegex)
    (dateVal : Str → Int) (cd : ChannelData) :
    channelFrame cd (channelAfter f re dateVal cd) := by
  refine ⟨rfl, rfl, ?_, ?_⟩
  · exact forall₂_self_map _ _ _ (fun e _ =>
      ⟨rfl, forall₂_self_map _ _ _ (fun p _ => pkgFrame_after f re dateVal p)⟩)
  · exact forall₂_self_map _ _ _ (fun e _ =>
      ⟨rfl, forall₂_self_map _ _ _ (fun l _ => libFrame_after f re dateVal l)⟩)

/-- C9 counterexample: `searchPackages` for query `"B"` over `catRelMut`
reorders the catalog package's `releases` array in place
(`getLatestRelease` calls `releases.sort(...)`): the post-state differs
from the pre-state, with the two releases swapped into date-descending
order.  (`dateLen` agrees with `Date` ordering on these two dates.) -/
theorem c9_counterexample :
    searchPackagesPost compileNone dateLen catRelMut (str "B") ≠ catRelMut
    ∧ (searchPackagesPost compileNone dateLen catRelMut (str "B")).packages_cache
        = [(str "r", [{ pkgRelMut with releases := [relB, relA] }])] := by
  refine ⟨by decide, by decide⟩

/-- C9 (amended): a search never changes the catalog *except* that each
included entry's `releases` array may be reordered in place by
`getLatestRelease`'s sort: the post-state has the same shape, every
scalar field of every entry is unchanged, and each entry's `releases` is
a permutation of the original. -/
theorem c9_frame_releases_perm (compile : Str → Option JsRegex)
    (dateVal : Str → Int) (cd : ChannelData) (query : Str) :
    channelFrame cd (searchPackagesPost compile dateVal cd query) := by
  unfold searchPackagesPost
  split
  · exact channelFrame_refl cd
  · dsimp only
    split
    · split
      · exact channelFrame_refl cd
      · exact channelAfter_frame _ _ dateVal cd
    · exact channelAfter_frame _ _ dateVal cd

/-! ## Claim C10 -/

/-- C10 counterexample: for the filter-only query `label:snippets` over a
catalog with one matching package and one library, both entries pass the
gate but their scores differ (45 vs 20) — the entries do not all tie. -/
theorem c10_counterexample :
    searchPackages compileNone dateLen catMixed (str "label:snippets")
      = .ok [resSnip, resLibY]
    ∧ resSnip.relevanceScore = 45 ∧ resLibY.relevanceScore = 20
    ∧ resSnip.relevanceScore ≠ resLibY.relevanceScore := by
  refine ⟨by rfl, by decide, by decide, by decide⟩

theorem labelBonus_nonneg (f : SearchFilters) : 0 ≤ labelBonus f := by
  unfold labelBonus
  split <;> omega

theorem pkg_score_empty_text {f : SearchFilters} {re : Option JsRegex}
    {dateVal : Str → Int} {cd : ChannelData} {r : SearchResult}
    (htq : f.textQuery = []) (h : r ∈ packageCandidates f re dateVal cd) :
    r.relevanceScore = 20 + authorBonus f + labelBonus f := by
  obtain ⟨entry, hentry, p, hp, h1, h2, h3, rfl⟩ := mem_packageCandidates.1 h
  show pkgRelevance f re p = _
  unfold pkgRelevance
  rw [htq]
  rfl

theorem lib_score_empty_text {f : SearchFilters} {re : Option JsRegex}
    {dateVal : Str → Int} {cd : ChannelData} {r : SearchResult}
    (htq : f.textQuery = []) (h : r ∈ libraryCandidates f re dateVal cd) :
    r.relevanceScore = 20 + authorBonus f := by
  obtain ⟨entry, hentry, l, hl, h1, h2, h3, rfl⟩ := mem_libraryCandidates.1 h
  show libRelevance f re l = _
  unfold libRelevance
  rw [htq]
  rfl

/-- With an empty text query every package candidate scores the same and
every library candidate scores the same (and not more), so the candidate
list is already sorted. -/
theorem candidates_sorted_empty_text {f : SearchFilters} {re : Option JsRegex}
    {dateVal : Str → Int} {cd : ChannelData} (htq : f.textQuery = []) :
    List.Sorted scoreRel (allCandidates f re dateVal cd) := by
  show List.Pairwise scoreRel
    (packageCandidates f re dateVal cd ++ libraryCandidates f re dateVal cd)
  rw [List.pairwise_append]
  refine ⟨?_, ?_, ?_⟩
  · refine List.pairwise_of_forall_mem_list (fun a ha b hb => ?_)
    unfold scoreRel
    rw [pkg_score_empty_text htq ha, pkg_score_empty_text htq hb]
  · refine List.pairwise_of_forall_mem_list (fun a ha b hb => ?_)
    unfold scoreRel
    rw [lib_score_empty_text htq ha, lib_score_empty_text htq hb]
  · intro a ha b hb
    unfold scoreRel
    rw [pkg_score_empty_text htq ha, lib_score_empty_text htq hb]
    have := labelBonus_nonneg f
    omega

/-- C10 (amended): with an empty parsed text query, every returned entry
scores exactly 20, plus 30 if the author filter is set, plus 25 if the
label filter is set and the entry is a Package — the +5 short-name bonus
never applies — so entries of the same kind tie, and since packages are
enumerated first and score at least as high as libraries, the output is
exactly the first 10 candidates in enumeration order (the sort does not
reorder anything).  Entries of different kinds need not tie (see the
counterexample). -/
theorem c10_empty_text_scores (compile : Str → Option JsRegex)
    (dateVal : Str → Int) (cd : ChannelData) (query : Str)
    (res : List SearchResult)
    (h : searchPackages compile dateVal cd query = .ok res)
    (htq : (parseSearchQuery (trimStr query)).textQuery = []) :
    (∀ r ∈ res, r.relevanceScore
        = 20 + authorBonus (parseSearchQuery (trimStr query))
          + (if r.type = .package
             then labelBonus (parseSearchQuery (trimStr query)) else 0))
    ∧ res = (allCandidates (parseSearchQuery (trimStr query))
        (regexOf compile (parseSearchQuery (trimStr query))) dateVal cd).take 10 := by
  obtain rfl := searchPackages_ok h
  constructor
  · intro r hr
    rcases List.mem_append.1 (mem_rankedResults hr) with hp | hlm
    · have hty : r.type = .package := by
        obtain ⟨entry, _, p, _, _, _, _, rfl⟩ := mem_packageCandidates.1 hp
        rfl
      rw [if_pos hty, pkg_score_empty_text htq hp]
    · have hty : r.type = .library := by
        obtain ⟨entry, _, l, _, _, _, _, rfl⟩ := mem_libraryCandidates.1 hlm
        rfl
      rw [hty, if_neg (by decide : ¬(ResultType.library = ResultType.package)),
        lib_score_empty_text htq hlm]
      omega
  · unfold rankedResults
    rw [(candidates_sorted_empty_text htq).insertionSort_eq]

/-- Witness for C10 (amended) on the two-entry catalog. -/
theorem c10_witness :
    (∀ r ∈ [resSnip, resLibY], r.relevanceScore
        = 20 + authorBonus (parseSearchQuery (trimStr (str "label:snippets")))
          + (if r.type = .package
             then labelBonus (parseSearchQuery (trimStr (str "label:snippets"))) else 0))
    ∧ [resSnip, resLibY]
        = (allCandidates (parseSearchQuery (trimStr (str "label:snippets")))
            (regexOf compileNone (parseSearchQuery (trimStr (str "label:snippets"))))
            dateLen catMixed).take 10 :=
  c10_empty_text_scores compileNone dateLen catMixed (str "label:snippets")
    [resSnip, resLibY] (by rfl) (by rfl)

/-! ## Claim C5 -/

/-- C5: in every rendered detail view the Previous button is disabled iff
the shown index is 0 and the Next button is disabled iff the shown index
is `len - 1` — for the navigation/selection row (`navRow`, rendered only
at in-bounds indices, see the third conjunct) and for the initial search
render (index 0, emitted only when `1 < len`) — so an enabled button
always steps to an index inside `[0, len)`. -/
theorem c5_nav_buttons_boundary :
    (∀ searchId index total, index < total →
       (((navRow searchId index total).prev.disabled = true) ↔ index = 0)
       ∧ (((navRow searchId index total).next.disabled = true) ↔ index = total - 1)
       ∧ ((navRow searchId index total).prev.disabled = false →
            1 ≤ index ∧ index - 1 < total)
       ∧ ((navRow searchId index total).next.disabled = false →
            index + 1 < total))
    ∧ (∀ searchId total, 1 < total →
       (initialNavRow searchId total).prev.disabled = true
       ∧ (((initialNavRow searchId total).next.disabled = true) ↔ (0 : Nat) = total - 1)
       ∧ ((initialNavRow searchId total).next.disabled = false → 0 + 1 < total))
    ∧ (∀ store customId,
       handleNavButton store customId = expiredNavResponse ∨
       ∃ results ni, store (navDecode customId).1 = some results ∧
         (navDecode customId).2 = some ni ∧ 0 ≤ ni ∧ ni.toNat < results.length ∧
         handleNavButton store customId
           = navDetailResponse (navDecode customId).1 ni.toNat results.length) := by
  refine ⟨?_, ?_, fun store customId => handleNavButton_cases store customId⟩
  · intro searchId index total hlt
    refine ⟨?_, ?_, ?_, ?_⟩
    · show ((index == 0) = true) ↔ index = 0
      simp
    · show ((index == total - 1) = true) ↔ index = total - 1
      simp
    · show ((index == 0) = false) → 1 ≤ index ∧ index - 1 < total
      simp only [beq_eq_false_iff_ne, ne_eq]
      omega
    · show ((index == total - 1) = false) → index + 1 < total
      simp only [beq_eq_false_iff_ne, ne_eq]
      omega
  · intro searchId total hlt
    refine ⟨rfl, ?_, ?_⟩
    · show ((total == 1) = true) ↔ (0 : Nat) = total - 1
      simp only [beq_iff_eq]
      omega
    · show ((total == 1) = false) → 0 + 1 < total
      simp only [beq_eq_false_iff_ne, ne_eq]
      omega

/-- Witness for C5 at the spec's own example: a five-item session at
indices 0, 2 and 4, plus the expired store for the handler conjunct. -/
theorem c5_witness :
    ((((navRow (str "s") 2 5).prev.disabled = true) ↔ (2 : Nat) = 0)
      ∧ (((navRow (str "s") 2 5).next.disabled = true) ↔ (2 : Nat) = 5 - 1)
      ∧ ((navRow (str "s") 2 5).prev.disabled = false → 1 ≤ 2 ∧ 2 - 1 < 5)
      ∧ ((navRow (str "s") 2 5).next.disabled = false → 2 + 1 < 5))
    ∧ ((initialNavRow (str "s") 5).prev.disabled = true
      ∧ (((initialNavRow (str "s") 5).next.disabled = true) ↔ (0 : Nat) = 5 - 1)
      ∧ ((initialNavRow (str "s") 5).next.disabled = false → 0 + 1 < 5))
    ∧ (handleNavButton storeEmpty (str "prev_package_s_0") = expiredNavResponse ∨
       ∃ results ni,
         storeEmpty (navDecode (str "prev_package_s_0")).1 = some results ∧
         (navDecode (str "prev_package_s_0")).2 = some ni ∧ 0 ≤ ni ∧
         ni.toNat < results.length ∧
         handleNavButton storeEmpty (str "prev_package_s_0")
           = navDetailResponse (navDecode (str "prev_package_s_0")).1
               ni.toNat results.length) :=
  ⟨c5_nav_buttons_boundary.1 (str "s") 2 5 (by decide),
   c5_nav_buttons_boundary.2.1 (str "s") 5 (by decide),
   c5_nav_buttons_boundary.2.2 storeEmpty (str "prev_package_s_0")⟩

theorem isPrefixOf_append_self (p rest : Str) :
    p.isPrefixOf (p ++ rest) = true := by
  induction p with
  | nil => simp [List.isPrefixOf]
  | cons c cs ih => simp [List.isPrefixOf, ih]

theorem removeFirst_append_self (p rest : Str) :
    removeFirst p (p ++ rest) = rest := by
  cases p with
  | nil =>
    cases rest with
    | nil => rfl
    | cons c cs =>
      show removeFirst [] (c :: cs) = c :: cs
      unfold removeFirst
      rw [if_pos (by simp [List.isPrefixOf])]
      rfl
  | cons c cs =>
    have h := isPrefixOf_append_self (c :: cs) rest
    rw [List.cons_append] at h ⊢
    unfold removeFirst
    rw [if_pos h]
    show (c :: (cs ++ rest)).drop (cs.length + 1) = rest
    rw [List.drop_succ_cons, List.drop_left]

/-! ## Claim C6 -/

/-- C6: for every Next/Previous or selection-menu component event whose
session lookup misses or whose computed target index is outside the
stored result list, the component dispatcher returns the well-formed
expired-session `UPDATE_MESSAGE` response with no interactive components
(the handlers are total functions — nothing escapes to the transport
layer — and the success path renders exactly the in-bounds target index,
see `c5_nav_buttons_boundary`). -/
theorem c6_expired_session_update (store : SessionStore)
    (restNav searchId selectedValue : Str) (values : List Str)
    (hprev : navFails store (str "prev_package_" ++ restNav))
    (hnext : navFails store (str "next_package_" ++ restNav))
    (hsel : selectFails store searchId selectedValue)
    (hvne : selectedValue.isEmpty = false) :
    handleComponent store (str "prev_package_" ++ restNav) values
      = expiredNavResponse
    ∧ handleComponent store (str "next_package_" ++ restNav) values
      = expiredNavResponse
    ∧ handleComponent store (str "package_select_" ++ searchId)
        (selectedValue :: values) = expiredSelectResponse
    ∧ expiredNavResponse.type = UPDATE_MESSAGE
    ∧ expiredSelectResponse.type = UPDATE_MESSAGE
    ∧ expiredNavResponse.data.map (fun d => d.components) = some []
    ∧ expiredSelectResponse.data.map (fun d => d.components) = some [] := by
  refine ⟨?_, ?_, ?_, rfl, rfl, rfl, rfl⟩
  · have hdis : handleComponent store (str "prev_package_" ++ restNav) values
        = handleNavButton store (str "prev_package_" ++ restNav) := by
      unfold handleComponent
      rw [show (str "package_select_").isPrefixOf (str "prev_package_" ++ restNav)
            = false from rfl,
          isPrefixOf_append_self]
      simp
    rw [hdis]
    exact handleNavButton_expired hprev
  · have hdis : handleComponent store (str "next_package_" ++ restNav) values
        = handleNavButton store (str "next_package_" ++ restNav) := by
      unfold handleComponent
      rw [show (str "package_select_").isPrefixOf (str "next_package_" ++ restNav)
            = false from rfl,
          show (str "prev_package_").isPrefixOf (str "next_package_" ++ restNav)
            = false from rfl,
          isPrefixOf_append_self]
      simp
    rw [hdis]
    exact handleNavButton_expired hnext
  · have hdis : handleComponent store (str "package_select_" ++ searchId)
        (selectedValue :: values)
        = if selectedValue.isEmpty then unknownCommandResponse
          else handleSelect store searchId selectedValue := by
      unfold handleComponent
      rw [isPrefixOf_append_self, removeFirst_append_self]
      simp
    rw [hdis, if_neg (by simp [hvne])]
    exact handleSelect_expired hsel

/-- Witness for C6: an empty store (expired session) with a Previous
event at index 0, a Next event, and a selection of `A|r|0`. -/
theorem c6_witness :
    handleComponent storeEmpty (str "prev_package_" ++ str "s_0") []
      = expiredNavResponse
    ∧ handleComponent storeEmpty (str "next_package_" ++ str "s_0") []
      = expiredNavResponse
    ∧ handleComponent storeEmpty (str "package_select_" ++ str "s")
        [str "A|r|0"] = expiredSelectResponse
    ∧ expiredNavResponse.type = UPDATE_MESSAGE
    ∧ expiredSelectResponse.type = UPDATE_MESSAGE
    ∧ expiredNavResponse.data.map (fun d => d.components) = some []
    ∧ expiredSelectResponse.data.map (fun d => d.components) = some [] :=
  c6_expired_session_update storeEmpty (str "s_0") (str "s") (str "A|r|0") []
    True.intro True.intro True.intro (by decide)

end PCBot


